import Mathlib

/-!
Shallow embedding of the content-registration backend: the co-signing
transactions endpoint, the register handler (both observed variants), the
link-wallet handler, the find-wallet handler (both observed variants), the
search handler's userID enrichment, and the action-token helpers.

Conventions of the embedding:
* request fields arriving through an untyped JSON body are modelled as
  `Option String` (or `Option Bool`), with JavaScript truthiness made
  explicit by `jsTruthy`;
* the ledger (Anchor account fetches), the address-validity test of the
  web3 library, the storage upload, the datastore insert and the random
  bytes of the token generator are external collaborators, so each handler
  takes them as explicit oracle fields of an environment record;
* `PublicKey.findProgramAddressSync` is collision-resistant by construction
  of the addressing scheme, so a derived address is embedded as the pair of
  its ordered seed list and the owning program id;
* a thrown JavaScript exception that reaches a handler's outer catch is
  modelled by the handler returning the generic 500 response of that catch;
* side effects (instruction construction, submission, token persistence)
  are returned alongside the response in an effects record.
-/

namespace TrustEngine

/-- JavaScript truthiness of an optional string field: an absent field and
the empty string are falsy, every other string is truthy. -/
def jsTruthy : Option String → Bool
  | Option.none => false
  | some s => !s.isEmpty

/-- Result of awaiting an account fetch from the ledger client: the account
was found, the fetch failed because the account does not exist, or the fetch
failed for an infrastructure reason (network, node, serialization). The
handlers' try/catch blocks see the last two cases identically. -/
inductive FetchResult (α : Type) where
  | found (account : α)
  | notFound
  | infraError
  deriving DecidableEq, Repr

/-- A derived ledger address: the ordered seed buffers and the owning
program id. Seed buffers are kept as strings (a public key contributes its
canonical encoding); the order of the list is the byte-concatenation order. -/
structure Pda where
  seeds : List String
  programId : String
  deriving DecidableEq, Repr

/-- Embedding of PublicKey.findProgramAddressSync: deterministic in the seed
list and program id. -/
def findProgramAddressSync (seeds : List String) (programId : String) : Pda :=
  ⟨seeds, programId⟩

/-- Address of the identity→wallet relation, seeds "user_id_to_wallet" then
the user id (src/src/link-wallet.ts line 55, src/src/wallet/find-wallet.ts
line 41). -/
def userIdToWalletPda (programId userID : String) : Pda :=
  findProgramAddressSync ["user_id_to_wallet", userID] programId

/-- Address of the wallet→identity relation, seeds "wallet_to_user_id" then
the wallet public key bytes (src/src/link-wallet.ts line 60,
src/src/wallet/find-wallet.ts line 53, register handlers). -/
def walletToUserIdPda (programId wallet : String) : Pda :=
  findProgramAddressSync ["wallet_to_user_id", wallet] programId

/-- Address derived by the search handler's userID enrichment, seeds
"user_key_relation" then the creator public key bytes (src/src/search.ts
line 97, src/unnamed/part_000 line 122). -/
def searchUserKeyRelationPda (programId creator : String) : Pda :=
  findProgramAddressSync ["user_key_relation", creator] programId

/-- Address of a content registration, seeds "content_registration", the
creator wallet public key bytes, then the 32 content-hash bytes
(src/unnamed/part_003 lines 62 and 381). -/
def contentRegistrationPda (programId wallet contentHashHex : String) : Pda :=
  findProgramAddressSync ["content_registration", wallet, contentHashHex] programId

/-- On-ledger identity↔wallet relation account. -/
structure UserKeyRelation where
  userId : String
  userPublicKey : String
  createdAt : Nat
  deriving DecidableEq, Repr

/-- On-ledger content registration account (fields read by the handlers). -/
structure ContentRegistration where
  creator : String
  ipfsCid : String
  timestamp : Nat
  finalized : Bool
  consensusPercentage : Nat
  deriving DecidableEq, Repr

/-! ### Co-signing transactions endpoint (src/src/transactions.ts) -/

/-- System program id constant of the web3 library. -/
def systemProgramId : String := "11111111111111111111111111111111"

/-- Compute-budget program id constant of the web3 library. -/
def computeBudgetProgramId : String := "ComputeBudget111111111111111111111111111111"

/-- One instruction of a deserialized transaction, reduced to the field the
authorization guard inspects. -/
structure Instruction where
  programId : String
  deriving DecidableEq, Repr

/-- The three configured program ids the transactions endpoint receives
through its dependency bag. -/
structure TxDeps where
  zkpProgramId : String
  userKeyRelationsProgramId : String
  stakingProgramId : String
  deriving DecidableEq, Repr

/-- The fixed allow-list built in src/src/transactions.ts lines 61-67, in
source order. -/
def allowedProgramIds (d : TxDeps) : List String :=
  [d.zkpProgramId, d.userKeyRelationsProgramId, d.stakingProgramId,
   systemProgramId, computeBudgetProgramId]

/-- Side effects the transactions handler can perform after the guard. -/
structure TxEffects where
  cosigned : Bool
  submitAttempted : Bool
  confirmed : Bool
  deriving DecidableEq, Repr

/-- Effects record of a request rejected before any signing. -/
def noTxEffects : TxEffects := ⟨false, false, false⟩

/-- Response of the transactions endpoint, reduced to the fields the guard
contract speaks about. -/
structure TxResponse where
  status : Nat
  errorFlag : Bool
  unauthorizedProgram : Option String
  allowedPrograms : Option (List String)
  transactionSignature : Option String
  deriving DecidableEq, Repr

/-- The first instruction of the transaction whose program id is outside
the allow-list, in instruction order — the instruction at which the loop of
src/src/transactions.ts lines 69-88 returns 403. -/
def firstUnauthorized (d : TxDeps) (instrs : List Instruction) : Option Instruction :=
  instrs.find? (fun i => !((allowedProgramIds d).contains i.programId))

/-- Embedding of the transactions handler (src/src/transactions.ts lines
55-121) after input validation and deserialization have produced the
instruction list: every instruction is checked against the allow-list; the
first offender yields a 403 naming it and the allow-list with no signature
and no submission; otherwise the fee payer co-signs, the transaction is
sent (`send` is the awaited result of sendRawTransaction) and confirmed
(`confirmOk` is whether confirmTransaction resolves), and the 200 response
carries the signature. A rejected send or confirm reaches the outer catch
and returns 500. -/
def transactionsHandler (d : TxDeps) (instrs : List Instruction)
    (send : Except String String) (confirmOk : Bool) : TxResponse × TxEffects :=
  match firstUnauthorized d instrs with
  | some i =>
      (⟨403, true, some i.programId, some (allowedProgramIds d), Option.none⟩, noTxEffects)
  | Option.none =>
      match send with
      | .error _ => (⟨500, true, Option.none, Option.none, Option.none⟩, ⟨true, true, false⟩)
      | .ok sig =>
          if confirmOk then
            (⟨200, false, Option.none, Option.none, some sig⟩, ⟨true, true, true⟩)
          else
            (⟨500, true, Option.none, Option.none, Option.none⟩, ⟨true, true, false⟩)

/-! ### Action-token helpers (src/unnamed/part_001) -/

/-- Hex encoding of one byte as in byte.toString(16).padStart(2, '0'):
lowercase digits, left-padded to two characters. -/
def hexByte (b : Nat) : String :=
  let s := String.mk (Nat.toDigits 16 b)
  if s.length = 1 then "0" ++ s else s

/-- Concatenation of the per-byte hex encodings, in byte order. -/
def bytesToHexLower : List Nat → String
  | [] => ""
  | b :: bs => hexByte b ++ bytesToHexLower bs

/-- Embedding of generateSecureToken (src/unnamed/part_001 lines 42-46): the
16 bytes drawn from webcrypto.getRandomValues are passed in as the
`randomBytes` oracle; the token is their lowercase hex encoding. -/
def generateSecureToken (randomBytes : List Nat) : String :=
  bytesToHexLower randomBytes

/-! ### Per-field validation helper -/

/-- Modelled from the spec: the validateFields helper every handler receives
through its dependency bag is not among the sources (the spec lists
per-field request validation boilerplate as out of scope, section 1, and
section 7 requires a validation response to enumerate every offending
field). For a named bag of fields it reports which are missing; fields are
modelled as optional strings, so its second class, present fields of a
non-string type, is empty in this embedding. -/
def validateFieldsMissing (fields : List (String × Option String)) : List String :=
  (fields.filter (fun f => !jsTruthy f.2)).map (fun f => f.1)

/-! ### Register handler (src/unnamed/part_003, both variants) -/

/-- Character class of the claim-hash regular expression. -/
def isHexChar (c : Char) : Bool :=
  c.isDigit || (('a' ≤ c) && (c ≤ 'f')) || (('A' ≤ c) && (c ≤ 'F'))

/-- Test for a 32-byte hex string (64 hex characters), the claim-hash format
check of both register variants. -/
def isHex64 (s : String) : Bool :=
  s.length == 64 && s.toList.all isHexChar

/-- The 64-character zero string: hex of the 32 zero bytes that stand in for
an absent claim hash. -/
def zeros64 : String := String.mk (List.replicate 64 '0')

/-- Result of the awaited storage upload (QuickNode IPFS call of both
register variants): a non-ok HTTP response, an ok response whose JSON lacks
pin.cid, a thrown network error, or success with a content identifier. -/
inductive UploadResult where
  | httpError (status : Nat) (body : String)
  | okMissingCid
  | thrown (msg : String)
  | okCid (cid : String)
  deriving DecidableEq, Repr

/-- Body of a register request; every JSON field is optional at the HTTP
boundary. fileMetadata stands for the opaque file descriptor object. -/
structure RegisterRequest where
  contentTitle : Option String
  walletAddress : Option String
  metadata : Option String
  walletType : Option String
  claimHash : Option String
  contentHash : Option String
  fileMetadata : Option String
  returnActionLink : Option Bool
  deriving DecidableEq, Repr

/-- The registration transaction as constructed by the handler: the
submitRegistration instruction arguments plus the client-signing decorations
added on the standard-wallet path. Serialization is modelled by the record
itself. -/
structure BuiltTransaction where
  contentHashHex : String
  claimHashHex : String
  ipfsCid : String
  timestamp : Nat
  recentBlockhash : Option String
  computeBudgetAdded : Bool
  deriving DecidableEq, Repr

/-- Row written to the transaction_actions table by insertTransactionAction
(src/unnamed/part_001 lines 59-78). -/
structure ActionRecord where
  token : String
  unsignedTransaction : BuiltTransaction
  creatorPubkey : String
  contentHash : String
  contentTitle : String
  expiresAtMs : Nat
  deriving DecidableEq, Repr

/-- External collaborators and ambient values a register request runs
against. -/
structure RegisterEnv where
  zkpProgramId : String
  userKeyRelProgramId : String
  isValidPubkey : String → Bool
  fetchContentRegistration : Pda → FetchResult ContentRegistration
  fetchUserKeyRelation : Pda → FetchResult UserKeyRelation
  upload : UploadResult
  blockhash : String
  nowMs : Nat
  randomBytes : List Nat
  dbInsertOk : Bool
  submitResult : Except String String

/-- Validation errors the accumulating register variant can report. -/
inductive RegisterVError where
  | missingFields (fields : List String)
  | invalidWalletType
  | invalidClaimHashFormat
  | metadataTooLong
  | walletAddressTooLong
  deriving DecidableEq, Repr

/-- Response of a register request, reduced to the fields the contract
speaks about; fields a given response shape does not carry are none. -/
structure RegisterResponse where
  status : Nat
  errorFlag : Bool
  detailStatus : Option String
  pdaAddress : Option Pda
  contentHash : Option String
  ipfsCid : Option String
  transaction : Option BuiltTransaction
  actionLink : Option String
  token : Option String
  expiresAtMs : Option Nat
  missingRequirement : Option String
  validationErrors : Option (List RegisterVError)
  transactionSignature : Option String
  deriving DecidableEq, Repr

/-- Response with every optional detail absent. -/
def RegisterResponse.base (status : Nat) (err : Bool) : RegisterResponse :=
  ⟨status, err, Option.none, Option.none, Option.none, Option.none, Option.none,
   Option.none, Option.none, Option.none, Option.none, Option.none, Option.none⟩

/-- Side effects of a register request. -/
structure RegisterEffects where
  uploadAttempted : Bool
  instructionBuilt : Bool
  submitAttempted : Bool
  storedAction : Option ActionRecord
  deriving DecidableEq, Repr

/-- Effects record of a request rejected before any side effect. -/
def noRegisterEffects : RegisterEffects := ⟨false, false, false, Option.none⟩

/-- Validation block of the accumulating register variant
(src/unnamed/part_003 lines 300-376), in source order: validateFields over
the four required fields, the walletType membership check, the claimHash
format check, the metadata length check, and finally the unguarded
walletAddress.length comparison — when walletAddress is absent that
dereference throws, modelled as the error case, before the accumulated
errors can be returned. The returnActionLink type check cannot fire in this
embedding because the field is already typed as an optional boolean. -/
def registerV2Validate (r : RegisterRequest) : Except Unit (List RegisterVError) :=
  let missing := validateFieldsMissing
    [("contentHashHex", r.contentHash), ("contentTitle", r.contentTitle),
     ("walletAddress", r.walletAddress), ("walletType", r.walletType)]
  let e1 : List RegisterVError :=
    if missing.isEmpty then [] else [.missingFields missing]
  let e2 : List RegisterVError := e1 ++
    (if r.walletType = some "standard" ∨ r.walletType = some "crossmint" then []
     else [.invalidWalletType])
  let e3 : List RegisterVError := e2 ++
    (if jsTruthy r.claimHash && !isHex64 (r.claimHash.getD "") then
      [.invalidClaimHashFormat] else [])
  let e4 : List RegisterVError := e3 ++
    (if jsTruthy r.metadata && decide ((r.metadata.getD "").length > 500) then
      [.metadataTooLong] else [])
  match r.walletAddress with
  | Option.none => .error ()
  | some w =>
      .ok (e4 ++ (if w.length > 1000 then [.walletAddressTooLong] else []))

/-- Hex string of the claim-hash bytes the instruction carries: the given
claim hash when truthy, otherwise the 32 zero bytes. -/
def claimHashHexUsed (r : RegisterRequest) : String :=
  if jsTruthy r.claimHash then r.claimHash.getD "" else zeros64

/-- Continuation of the accumulating register variant after the duplicate
and user-key-relation checks passed (src/unnamed/part_003 lines 424-579):
upload the combined metadata, construct the registration instruction, then
dispatch by walletType and returnActionLink. -/
def registerV2AfterChecks (env : RegisterEnv) (r : RegisterRequest)
    (wallet contentHashHex : String) (pda : Pda) :
    RegisterResponse × RegisterEffects :=
  match env.upload with
  | .httpError st _ =>
      (RegisterResponse.base st true, { noRegisterEffects with uploadAttempted := true })
  | .okMissingCid =>
      (RegisterResponse.base 500 true, { noRegisterEffects with uploadAttempted := true })
  | .thrown _ =>
      (RegisterResponse.base 500 true, { noRegisterEffects with uploadAttempted := true })
  | .okCid rootCid =>
      let tx0 : BuiltTransaction :=
        ⟨contentHashHex, claimHashHexUsed r, rootCid, env.nowMs / 1000, Option.none, false⟩
      let eff0 : RegisterEffects := ⟨true, true, false, Option.none⟩
      if r.walletType = some "crossmint" then
        match env.submitResult with
        | .error _ =>
            (RegisterResponse.base 500 true, { eff0 with submitAttempted := true })
        | .ok sig =>
            ({ RegisterResponse.base 200 false with
                detailStatus := some "confirmed",
                transactionSignature := some sig,
                pdaAddress := some pda,
                contentHash := some contentHashHex,
                ipfsCid := some rootCid }, { eff0 with submitAttempted := true })
      else
        let tx : BuiltTransaction :=
          { tx0 with recentBlockhash := some env.blockhash, computeBudgetAdded := true }
        if r.returnActionLink = some true then
          if env.dbInsertOk then
            let token := generateSecureToken env.randomBytes
            let expiresAt := env.nowMs + 24 * 60 * 60 * 1000
            let record : ActionRecord :=
              ⟨token, tx, wallet, contentHashHex, r.contentTitle.getD "", expiresAt⟩
            ({ RegisterResponse.base 200 false with
                detailStatus := some "action-link-created",
                actionLink := some ("http://trustengine.org/tx-action/" ++ token),
                token := some token,
                expiresAtMs := some expiresAt,
                contentHash := some contentHashHex }, { eff0 with storedAction := some record })
          else
            (RegisterResponse.base 500 true, eff0)
        else
          ({ RegisterResponse.base 200 false with
              detailStatus := some "requires-client-signature",
              transaction := some tx,
              ipfsCid := some rootCid,
              pdaAddress := some pda,
              contentHash := some contentHashHex }, eff0)

/-- Embedding of the accumulating register variant (src/unnamed/part_003
lines 284-588): validation (a thrown dereference lands in the outer catch
as 500), the duplicate-registration check (any fetch failure falls through
the empty catch), the user-key-relation prerequisite (any fetch failure is
409 naming the missing requirement), then upload and dispatch. -/
def registerV2Handler (env : RegisterEnv) (r : RegisterRequest) :
    RegisterResponse × RegisterEffects :=
  match registerV2Validate r with
  | .error _ => (RegisterResponse.base 500 true, noRegisterEffects)
  | .ok errors =>
    if errors.isEmpty then
      let wallet := r.walletAddress.getD ""
      if env.isValidPubkey wallet then
        let contentHashHex := r.contentHash.getD ""
        let pda := contentRegistrationPda env.zkpProgramId wallet contentHashHex
        match env.fetchContentRegistration pda with
        | .found _ =>
            ({ RegisterResponse.base 409 true with
                pdaAddress := some pda,
                contentHash := some contentHashHex }, noRegisterEffects)
        | _ =>
            match env.fetchUserKeyRelation
                (walletToUserIdPda env.userKeyRelProgramId wallet) with
            | .found _ => registerV2AfterChecks env r wallet contentHashHex pda
            | _ =>
                ({ RegisterResponse.base 409 true with
                    missingRequirement := some "User-Key Relation" }, noRegisterEffects)
      else
        (RegisterResponse.base 500 true, noRegisterEffects)
    else
      ({ RegisterResponse.base 400 true with validationErrors := some errors },
       noRegisterEffects)

/-- Continuation of the earlier register variant after its duplicate and
user-key-relation checks passed (src/unnamed/part_003 lines 118-269):
metadata checks, the fileMetadata dereference (a missing descriptor throws
into the outer catch), the upload, instruction construction, then the
crossmint 202 path — which destructures the submit result without checking
its error field — or the client-signing 200 path. -/
def registerV1AfterChecks (env : RegisterEnv) (r : RegisterRequest)
    (_wallet contentHashHex : String) (pda : Pda) :
    RegisterResponse × RegisterEffects :=
  if jsTruthy r.metadata && decide ((r.metadata.getD "").length > 500) then
    (RegisterResponse.base 400 true, noRegisterEffects)
  else
    match r.fileMetadata with
    | Option.none => (RegisterResponse.base 500 true, noRegisterEffects)
    | some _ =>
      match env.upload with
      | .httpError st _ =>
          (RegisterResponse.base st true, { noRegisterEffects with uploadAttempted := true })
      | .okMissingCid =>
          (RegisterResponse.base 500 true, { noRegisterEffects with uploadAttempted := true })
      | .thrown _ =>
          (RegisterResponse.base 500 true, { noRegisterEffects with uploadAttempted := true })
      | .okCid rootCid =>
          let tx0 : BuiltTransaction :=
            ⟨contentHashHex, claimHashHexUsed r, rootCid, env.nowMs / 1000,
             Option.none, false⟩
          let eff0 : RegisterEffects := ⟨true, true, false, Option.none⟩
          if r.walletType = some "crossmint" then
            let sigOpt : Option String :=
              match env.submitResult with
              | .ok s => some s
              | .error _ => Option.none
            ({ RegisterResponse.base 202 false with
                detailStatus := some "processing",
                transactionSignature := sigOpt,
                pdaAddress := some pda,
                contentHash := some contentHashHex,
                ipfsCid := some rootCid }, { eff0 with submitAttempted := true })
          else
            let tx : BuiltTransaction :=
              { tx0 with recentBlockhash := some env.blockhash, computeBudgetAdded := true }
            ({ RegisterResponse.base 200 false with
                detailStatus := some "requires-client-signature",
                transaction := some tx,
                ipfsCid := some rootCid,
                pdaAddress := some pda,
                contentHash := some contentHashHex }, eff0)

/-- Embedding of the earlier register variant (src/unnamed/part_003 lines
5-278): sequential early-return validation, the duplicate-registration
check (409), then the user-key-relation prerequisite — whose absence this
variant reports with status 400, details naming "User-Key Relation" —
before metadata checks, upload and dispatch. -/
def registerV1Handler (env : RegisterEnv) (r : RegisterRequest) :
    RegisterResponse × RegisterEffects :=
  if !jsTruthy r.contentHash then
    (RegisterResponse.base 400 true, noRegisterEffects)
  else if !jsTruthy r.contentTitle || !jsTruthy r.walletAddress || !jsTruthy r.walletType then
    ({ RegisterResponse.base 400 true with
        validationErrors := some [.missingFields (validateFieldsMissing
          [("contentTitle", r.contentTitle), ("walletAddress", r.walletAddress),
           ("walletType", r.walletType)])] }, noRegisterEffects)
  else if !(r.walletType = some "standard" ∨ r.walletType = some "crossmint") then
    (RegisterResponse.base 400 true, noRegisterEffects)
  else if jsTruthy r.claimHash && !isHex64 (r.claimHash.getD "") then
    (RegisterResponse.base 400 true, noRegisterEffects)
  else
    let wallet := r.walletAddress.getD ""
    if env.isValidPubkey wallet then
      let contentHashHex := r.contentHash.getD ""
      let pda := contentRegistrationPda env.zkpProgramId wallet contentHashHex
      match env.fetchContentRegistration pda with
      | .found _ =>
          ({ RegisterResponse.base 409 true with
              pdaAddress := some pda,
              contentHash := some contentHashHex }, noRegisterEffects)
      | _ =>
          match env.fetchUserKeyRelation
              (walletToUserIdPda env.userKeyRelProgramId wallet) with
          | .found _ => registerV1AfterChecks env r wallet contentHashHex pda
          | _ =>
              ({ RegisterResponse.base 400 true with
                  missingRequirement := some "User-Key Relation" }, noRegisterEffects)
    else
      (RegisterResponse.base 500 true, noRegisterEffects)

/-! ### Link-wallet handler (src/src/link-wallet.ts, first variant) -/

/-- Body of a link-wallet request. -/
structure LinkRequest where
  userID : Option String
  walletAddress : Option String
  deriving DecidableEq, Repr

/-- External collaborators a link-wallet request runs against. -/
structure LinkEnv where
  userKeyRelProgramId : String
  isValidPubkey : String → Bool
  fetchRelation : Pda → FetchResult UserKeyRelation
  submitResult : Except String String

/-- Validation errors the link-wallet handler can report. -/
inductive LinkVError where
  | missingFields (fields : List String)
  | invalidWalletAddressFormat
  | userIdTooLong
  deriving DecidableEq, Repr

/-- The single storeUserKeyRelation instruction the handler constructs: it
names both directional relation accounts, establishing both records in one
ledger-atomic write (src/src/link-wallet.ts lines 100-109). -/
structure LinkInstruction where
  userID : String
  userPublicKey : String
  userIdToWalletRelation : Pda
  walletToUserIdRelation : Pda
  deriving DecidableEq, Repr

/-- Response of a link-wallet request. -/
structure LinkResponse where
  status : Nat
  errorFlag : Bool
  conflictType : Option String
  existingWallet : Option String
  existingUserID : Option String
  transactionSignature : Option String
  validationErrors : Option (List LinkVError)
  deriving DecidableEq, Repr

/-- Side effects of a link-wallet request. -/
structure LinkEffects where
  builtInstruction : Option LinkInstruction
  submitAttempted : Bool
  deriving DecidableEq, Repr

/-- Validation block of the link-wallet handler (src/src/link-wallet.ts
lines 11-50), in source order. -/
def linkWalletValidate (env : LinkEnv) (r : LinkRequest) : List LinkVError :=
  let missing := validateFieldsMissing
    [("userID", r.userID), ("walletAddress", r.walletAddress)]
  (if missing.isEmpty then [] else [LinkVError.missingFields missing]) ++
  (if jsTruthy r.walletAddress && !env.isValidPubkey (r.walletAddress.getD "") then
    [LinkVError.invalidWalletAddressFormat] else []) ++
  (if jsTruthy r.userID && decide ((r.userID.getD "").length > 200) then
    [LinkVError.userIdTooLong] else [])

/-- Embedding of the first link-wallet variant (src/src/link-wallet.ts lines
4-141): validation, the identity→wallet existence check (a found relation is
409 reporting the existing wallet; any fetch failure falls through the
empty catch), the wallet→identity existence check (a found relation is 409
reporting the existing user id), then construction and submission of the
single two-record instruction. -/
def linkWalletHandler (env : LinkEnv) (r : LinkRequest) :
    LinkResponse × LinkEffects :=
  let errors := linkWalletValidate env r
  if errors.isEmpty then
    let uid := r.userID.getD ""
    let wallet := r.walletAddress.getD ""
    let pdaU := userIdToWalletPda env.userKeyRelProgramId uid
    let pdaW := walletToUserIdPda env.userKeyRelProgramId wallet
    match env.fetchRelation pdaU with
    | .found rel =>
        (⟨409, true, some "User ID already linked", some rel.userPublicKey,
          Option.none, Option.none, Option.none⟩, ⟨Option.none, false⟩)
    | _ =>
      match env.fetchRelation pdaW with
      | .found rel =>
          (⟨409, true, some "Wallet already linked", Option.none,
            some rel.userId, Option.none, Option.none⟩, ⟨Option.none, false⟩)
      | _ =>
        let instr : LinkInstruction := ⟨uid, wallet, pdaU, pdaW⟩
        match env.submitResult with
        | .error _ =>
            (⟨500, true, Option.none, Option.none, Option.none, Option.none,
              Option.none⟩, ⟨some instr, true⟩)
        | .ok sig =>
            (⟨200, false, Option.none, Option.none, Option.none, some sig,
              Option.none⟩, ⟨some instr, true⟩)
  else
    (⟨400, true, Option.none, Option.none, Option.none, Option.none,
      some errors⟩, ⟨Option.none, false⟩)

/-! ### Find-wallet handler (src/src/wallet/find-wallet.ts and
src/unnamed/part_002) -/

/-- Query string of a find-wallet request. -/
structure FindWalletQuery where
  userID : Option String
  walletAddress : Option String
  deriving DecidableEq, Repr

/-- External collaborators a find-wallet request runs against. -/
structure FindWalletEnv where
  userKeyRelProgramId : String
  isValidPubkey : String → Bool
  fetchRelation : Pda → FetchResult UserKeyRelation

/-- Response of a find-wallet request. -/
structure FindWalletResponse where
  status : Nat
  errorFlag : Bool
  exactlyOneViolation : Bool
  relationUserId : Option String
  relationWallet : Option String
  relationPda : Option Pda
  deriving DecidableEq, Repr

/-- Embedding of the src/src find-wallet variant
(src/src/wallet/find-wallet.ts lines 4-127): the exactly-one check is 400;
with a userID the identity→wallet address is derived, with a walletAddress
the wallet→identity address (an invalid address is 400); a found relation
is 200 carrying it and a fetch failure is reported with status 404. -/
def findWalletV1Handler (env : FindWalletEnv) (q : FindWalletQuery) :
    FindWalletResponse :=
  if (!jsTruthy q.userID && !jsTruthy q.walletAddress)
      || (jsTruthy q.userID && jsTruthy q.walletAddress) then
    ⟨400, true, true, Option.none, Option.none, Option.none⟩
  else if jsTruthy q.userID then
    let pda := userIdToWalletPda env.userKeyRelProgramId (q.userID.getD "")
    match env.fetchRelation pda with
    | .found rel => ⟨200, false, false, some rel.userId, some rel.userPublicKey, some pda⟩
    | _ => ⟨404, true, false, Option.none, Option.none, Option.none⟩
  else
    let w := q.walletAddress.getD ""
    if env.isValidPubkey w then
      let pda := walletToUserIdPda env.userKeyRelProgramId w
      match env.fetchRelation pda with
      | .found rel => ⟨200, false, false, some rel.userId, some rel.userPublicKey, some pda⟩
      | _ => ⟨404, true, false, Option.none, Option.none, Option.none⟩
    else
      ⟨400, true, false, Option.none, Option.none, Option.none⟩

/-- Embedding of the part_002 find-wallet variant (src/unnamed/part_002
lines 4-162): identical derivation and fetch flow, but a fetch failure on
the relation account is reported with status 409. -/
def findWalletV2Handler (env : FindWalletEnv) (q : FindWalletQuery) :
    FindWalletResponse :=
  if (!jsTruthy q.userID && !jsTruthy q.walletAddress)
      || (jsTruthy q.userID && jsTruthy q.walletAddress) then
    ⟨400, true, true, Option.none, Option.none, Option.none⟩
  else if jsTruthy q.userID then
    let pda := userIdToWalletPda env.userKeyRelProgramId (q.userID.getD "")
    match env.fetchRelation pda with
    | .found rel => ⟨200, false, false, some rel.userId, some rel.userPublicKey, some pda⟩
    | _ => ⟨409, true, false, Option.none, Option.none, Option.none⟩
  else
    let w := q.walletAddress.getD ""
    if env.isValidPubkey w then
      let pda := walletToUserIdPda env.userKeyRelProgramId w
      match env.fetchRelation pda with
      | .found rel => ⟨200, false, false, some rel.userId, some rel.userPublicKey, some pda⟩
      | _ => ⟨409, true, false, Option.none, Option.none, Option.none⟩
    else
      ⟨400, true, false, Option.none, Option.none, Option.none⟩

/-! ### Search handler userID enrichment (src/src/search.ts lines 94-105,
src/unnamed/part_000 lines 119-130) -/

/-- External collaborators of the search enrichment. -/
structure SearchEnv where
  userKeyRelProgramId : String
  fetchRelation : Pda → FetchResult UserKeyRelation

/-- Embedding of the per-registration userID enrichment of both search
variants: derive an address from the seed tag "user_key_relation" and the
registration's creator, fetch it, and on any failure leave userID null. -/
def searchUserIdEnrichment (env : SearchEnv) (creator : String) : Option String :=
  match env.fetchRelation (searchUserKeyRelationPda env.userKeyRelProgramId creator) with
  | .found rel => some rel.userId
  | _ => Option.none

/-- Ledger view right after a successful link(uid, wallet): the relation is
readable at both directional addresses the link-wallet handler wrote, and
nowhere else. -/
def ledgerAfterLink (progId uid wallet : String) (rel : UserKeyRelation) :
    Pda → FetchResult UserKeyRelation :=
  fun p =>
    if p = userIdToWalletPda progId uid ∨ p = walletToUserIdPda progId wallet then
      .found rel
    else
      .notFound

/-! ### Concrete fixtures used by witnesses and counterexamples -/

/-- A relation account as link-wallet would create it. -/
def sampleRelation : UserKeyRelation := ⟨"user-1", "WalletAAA", 1700000000⟩

/-- A fully valid standard-wallet register request; its contentHash is the
64-zero hex string. -/
def stdRequest : RegisterRequest :=
  ⟨some "My Title", some "WalletAAA", Option.none, some "standard", Option.none,
   some zeros64, some "file-descriptor", Option.none⟩

/-- The same request asking for an action link. -/
def stdLinkRequest : RegisterRequest := { stdRequest with returnActionLink := some true }

/-- The same request with an unsupported walletType. -/
def badTypeRequest : RegisterRequest := { stdRequest with walletType := some "ledger" }

/-- The same request with walletAddress absent. -/
def noWalletRequest : RegisterRequest := { stdRequest with walletAddress := Option.none }

/-- Environment of a first registration: no existing registration, an
existing user-key relation, a working upload, datastore and submitter. -/
def freshRegisterEnv : RegisterEnv :=
  ⟨"ZkpProg", "RelProg", fun _ => true, fun _ => .notFound,
   fun _ => .found sampleRelation, .okCid "QmCid1", "Blockhash1", 1700000000000,
   [0, 1, 2, 3, 4, 5, 6, 7, 8, 9, 10, 11, 12, 13, 14, 255], true, .ok "sig-1"⟩

/-- The same environment after the first registration succeeded: the
registration account now exists. -/
def dupRegisterEnv : RegisterEnv :=
  { freshRegisterEnv with fetchContentRegistration :=
      fun _ => FetchResult.found ⟨"WalletAAA", "QmCid1", 1700000000, false, 0⟩ }

/-- The same environment with no user-key relation for any wallet. -/
def noRelationEnv : RegisterEnv :=
  { freshRegisterEnv with fetchUserKeyRelation := fun _ => .notFound }

/-- The same environment whose duplicate-registration fetch fails for an
infrastructure reason. -/
def infraDupCheckEnv : RegisterEnv :=
  { freshRegisterEnv with fetchContentRegistration := fun _ => .infraError }

/-- The same environment whose user-key-relation fetch fails for an
infrastructure reason. -/
def infraRelCheckEnv : RegisterEnv :=
  { freshRegisterEnv with fetchUserKeyRelation := fun _ => .infraError }

/-- The same environment whose storage upload fails with a non-ok 502
response. -/
def uploadFailEnv : RegisterEnv :=
  { freshRegisterEnv with upload := .httpError 502 "bad gateway" }

/-- A link-wallet environment with no existing relations. -/
def sampleLinkEnv : LinkEnv := ⟨"RelProg", fun _ => true, fun _ => .notFound, .ok "sig-2"⟩

/-- A link-wallet environment whose relation fetches fail for an
infrastructure reason. -/
def infraLinkEnv : LinkEnv := { sampleLinkEnv with fetchRelation := fun _ => .infraError }

/-- A valid link-wallet request. -/
def sampleLinkReq : LinkRequest := ⟨some "user-1", some "WalletAAA"⟩

/-- A find-wallet environment in which no relation exists. -/
def absentFindEnv : FindWalletEnv := ⟨"RelProg", fun _ => true, fun _ => .notFound⟩

/-- A link-wallet environment whose ledger already holds the relation
link(user-1, WalletAAA) at both directional addresses. -/
def linkedLinkEnv : LinkEnv :=
  ⟨"RelProg", fun _ => true,
   ledgerAfterLink "RelProg" "user-1" "WalletAAA" sampleRelation, .ok "sig-3"⟩

/-- A search environment over the same post-link ledger. -/
def linkedSearchEnv : SearchEnv :=
  ⟨"RelProg", ledgerAfterLink "RelProg" "user-1" "WalletAAA" sampleRelation⟩

/-- A find-wallet environment over the same post-link ledger. -/
def linkedFindEnv : FindWalletEnv :=
  ⟨"RelProg", fun _ => true,
   ledgerAfterLink "RelProg" "user-1" "WalletAAA" sampleRelation⟩

/-! ## Theorems -/

set_option maxRecDepth 4096 in
/-- Hex encoding of a byte always has exactly two characters. -/
theorem hexByte_length : ∀ b < 256, (hexByte b).length = 2 := by decide

/-- A token generated from n in-range bytes has exactly 2 * n characters;
in particular the 16 random bytes of the source give a fixed 32-character
token. -/
theorem generateSecureToken_length (bs : List Nat) (h : ∀ b ∈ bs, b < 256) :
    (generateSecureToken bs).length = 2 * bs.length := by
  induction bs with
  | nil => rfl
  | cons b bs ih =>
      have hb : (hexByte b).length = 2 := hexByte_length b (h b (by simp))
      have ht := ih (fun x hx => h x (by simp [hx]))
      simp only [generateSecureToken, bytesToHexLower] at *
      rw [String.length_append, hb, ht, List.length_cons]
      ring

/-- C1: a transaction containing any instruction whose program is outside
the fixed allow-list is rejected with 403 reporting the offending program
and the allow-list, with no co-signature and no submission; when every
instruction is allowed and the submission pipeline succeeds, the handler
co-signs, submits and confirms, returning 200 with the signature. -/
theorem transactions_allowlist_guard (d : TxDeps) (instrs : List Instruction)
    (send : Except String String) (confirmOk : Bool) :
    ((∃ i ∈ instrs, ((allowedProgramIds d).contains i.programId) = false) →
      (transactionsHandler d instrs send confirmOk).1.status = 403 ∧
      (∃ i ∈ instrs, ((allowedProgramIds d).contains i.programId) = false ∧
        (transactionsHandler d instrs send confirmOk).1.unauthorizedProgram = some i.programId) ∧
      (transactionsHandler d instrs send confirmOk).1.allowedPrograms
        = some (allowedProgramIds d) ∧
      (transactionsHandler d instrs send confirmOk).2 = noTxEffects) ∧
    ((∀ i ∈ instrs, ((allowedProgramIds d).contains i.programId) = true) →
      ∀ sig, send = .ok sig → confirmOk = true →
      (transactionsHandler d instrs send confirmOk).1.status = 200 ∧
      (transactionsHandler d instrs send confirmOk).1.transactionSignature = some sig ∧
      (transactionsHandler d instrs send confirmOk).2 = ⟨true, true, true⟩) := by
  constructor
  · rintro ⟨i, hi, hbad⟩
    have hsome : (firstUnauthorized d instrs).isSome := by
      rw [firstUnauthorized, List.find?_isSome]
      exact ⟨i, hi, by simpa using hbad⟩
    obtain ⟨j, hj⟩ := Option.isSome_iff_exists.mp hsome
    have hjbad : ((allowedProgramIds d).contains j.programId) = false := by
      have := List.find?_some hj
      simpa using this
    have hjmem : j ∈ instrs := List.mem_of_find?_eq_some hj
    refine ⟨?_, ⟨j, hjmem, hjbad, ?_⟩, ?_, ?_⟩ <;> simp [transactionsHandler, hj]
  · intro hall sig hs hc
    have hnone : firstUnauthorized d instrs = Option.none := by
      rw [firstUnauthorized, List.find?_eq_none]
      intro i hi
      simpa using hall i hi
    subst hs hc
    simp [transactionsHandler, hnone]

/-- Witness for C1 at concrete inputs: one transaction holding an
instruction for an unlisted program is rejected with 403 naming it, and one
whose single instruction targets the staking program is co-signed and
confirmed with 200. -/
theorem transactions_allowlist_guard_witness :
    (transactionsHandler ⟨"ZkpProg", "RelProg", "StakeProg"⟩ [⟨"EvilProg"⟩]
        (.ok "sig1") true).1.status = 403 ∧
    (transactionsHandler ⟨"ZkpProg", "RelProg", "StakeProg"⟩ [⟨"EvilProg"⟩]
        (.ok "sig1") true).1.unauthorizedProgram = some "EvilProg" ∧
    (transactionsHandler ⟨"ZkpProg", "RelProg", "StakeProg"⟩ [⟨"EvilProg"⟩]
        (.ok "sig1") true).2 = noTxEffects ∧
    (transactionsHandler ⟨"ZkpProg", "RelProg", "StakeProg"⟩ [⟨"StakeProg"⟩]
        (.ok "sig1") true).1.status = 200 := by
  have h := transactions_allowlist_guard ⟨"ZkpProg", "RelProg", "StakeProg"⟩
    [⟨"EvilProg"⟩] (.ok "sig1") true
  have h2 := transactions_allowlist_guard ⟨"ZkpProg", "RelProg", "StakeProg"⟩
    [⟨"StakeProg"⟩] (.ok "sig1") true
  have hrej := h.1 ⟨⟨"EvilProg"⟩, by simp, by decide⟩
  refine ⟨hrej.1, ?_, hrej.2.2.2, (h2.2 (by decide) "sig1" rfl rfl).1⟩
  obtain ⟨j, hj, _, hu⟩ := hrej.2.1
  have : j = ⟨"EvilProg"⟩ := by simpa using hj
  subst this
  exact hu

/-- Every response of the post-check continuation that carries a pdaAddress
carries the address it was called with. -/
theorem registerV2AfterChecks_pdaAddress (env : RegisterEnv) (r : RegisterRequest)
    (w c : String) (pda : Pda) (p : Pda)
    (h : (registerV2AfterChecks env r w c pda).1.pdaAddress = some p) : p = pda := by
  unfold registerV2AfterChecks at h
  repeat' split at h
  all_goals simp_all [RegisterResponse.base]

/-- Every register response of the accumulating variant that carries a
pdaAddress carries the address derived from the request's wallet and
content hash. -/
theorem registerV2_pdaAddress_eq (env : RegisterEnv) (r : RegisterRequest) (p : Pda)
    (h : (registerV2Handler env r).1.pdaAddress = some p) :
    p = contentRegistrationPda env.zkpProgramId (r.walletAddress.getD "")
          (r.contentHash.getD "") := by
  rcases hv : registerV2Validate r with e | errors
  · simp_all [registerV2Handler, RegisterResponse.base]
  · rcases hf : env.fetchContentRegistration (contentRegistrationPda env.zkpProgramId
        (r.walletAddress.getD "") (r.contentHash.getD "")) with acc | _ | _ <;>
      rcases hrel : env.fetchUserKeyRelation (walletToUserIdPda env.userKeyRelProgramId
          (r.walletAddress.getD "")) with rel | _ | _ <;>
      by_cases he : errors.isEmpty = true <;>
      by_cases hpk : env.isValidPubkey (r.walletAddress.getD "") = true <;>
      simp_all [registerV2Handler, RegisterResponse.base] <;>
      exact registerV2AfterChecks_pdaAddress _ _ _ _ _ _ h

/-- C2: once a ContentRegistration account exists at the address derived
from (creatorAddress, contentHash), a register call for the same pair fails
with Conflict 409 whose reported address is exactly that derived address —
the same address every successful first response reported — so registering
twice yields success then Conflict with matching addresses, in both
observed register variants. -/
theorem register_duplicate_conflict (env1 env2 : RegisterEnv) (r : RegisterRequest)
    (acc : ContentRegistration)
    (hval : registerV2Validate r = .ok [])
    (hh : jsTruthy r.contentHash = true)
    (ht : jsTruthy r.contentTitle = true)
    (hwa : jsTruthy r.walletAddress = true)
    (hwt : r.walletType = some "standard" ∨ r.walletType = some "crossmint")
    (hch : (jsTruthy r.claimHash && !isHex64 (r.claimHash.getD "")) = false)
    (hpk2 : env2.isValidPubkey (r.walletAddress.getD "") = true)
    (hprog : env2.zkpProgramId = env1.zkpProgramId)
    (_hfirst : (registerV2Handler env1 r).1.status = 200)
    (hfound : env2.fetchContentRegistration (contentRegistrationPda env2.zkpProgramId
        (r.walletAddress.getD "") (r.contentHash.getD "")) = .found acc) :
    (registerV2Handler env2 r).1.status = 409 ∧
    (registerV2Handler env2 r).1.pdaAddress
      = some (contentRegistrationPda env1.zkpProgramId (r.walletAddress.getD "")
          (r.contentHash.getD "")) ∧
    (registerV1Handler env2 r).1.status = 409 ∧
    (registerV1Handler env2 r).1.pdaAddress
      = some (contentRegistrationPda env1.zkpProgramId (r.walletAddress.getD "")
          (r.contentHash.getD "")) ∧
    ∀ p, (registerV2Handler env1 r).1.pdaAddress = some p →
      p = contentRegistrationPda env1.zkpProgramId (r.walletAddress.getD "")
          (r.contentHash.getD "") := by
  have hwtT : jsTruthy r.walletType = true := by
    rcases hwt with hs | hs <;> rw [hs] <;> decide
  have hv2 : (registerV2Handler env2 r).1.status = 409 ∧
      (registerV2Handler env2 r).1.pdaAddress
        = some (contentRegistrationPda env2.zkpProgramId (r.walletAddress.getD "")
            (r.contentHash.getD "")) := by
    constructor <;> simp [registerV2Handler, hval, hpk2, hfound, RegisterResponse.base]
  have hv1 : (registerV1Handler env2 r).1.status = 409 ∧
      (registerV1Handler env2 r).1.pdaAddress
        = some (contentRegistrationPda env2.zkpProgramId (r.walletAddress.getD "")
            (r.contentHash.getD "")) := by
    rcases hwt with hs | hs <;>
      constructor <;>
      simp +decide [registerV1Handler, hh, ht, hwa, hs, hwtT, hch, hpk2, hfound,
        RegisterResponse.base]
  rw [hprog] at hv2 hv1
  exact ⟨hv2.1, hv2.2, hv1.1, hv1.2,
    fun p hp => registerV2_pdaAddress_eq env1 r p hp⟩

/-- Witness for C2 at concrete inputs: a first registration of
(WalletAAA, the zero hash) succeeds with 200; repeating it against the
ledger that now holds the registration account yields 409 reporting the
derived address of that same pair. -/
theorem register_duplicate_conflict_witness :
    (registerV2Handler freshRegisterEnv stdRequest).1.status = 200 ∧
    (registerV2Handler dupRegisterEnv stdRequest).1.status = 409 ∧
    (registerV2Handler dupRegisterEnv stdRequest).1.pdaAddress
      = some (contentRegistrationPda "ZkpProg" "WalletAAA" zeros64) ∧
    (registerV1Handler dupRegisterEnv stdRequest).1.status = 409 := by
  have h := register_duplicate_conflict freshRegisterEnv dupRegisterEnv stdRequest
    ⟨"WalletAAA", "QmCid1", 1700000000, false, 0⟩ rfl (by decide) (by decide)
    (by decide) (Or.inl rfl) (by decide) rfl rfl (by decide) rfl
  exact ⟨by decide, h.1, h.2.1, h.2.2.1⟩

/-- Counterexample for C3 as stated: in the earlier register variant a
fully valid request whose wallet has no user-key relation is answered with
status 400 — not Conflict 409 — though its details do name "User-Key
Relation"; and in the accumulating variant a request with an invalid
walletType and no relation is answered by the 400 validation response,
which names no missing requirement at all. -/
theorem register_missing_relation_status_counterexample :
    (registerV1Handler noRelationEnv stdRequest).1.status = 400 ∧
    (registerV1Handler noRelationEnv stdRequest).1.missingRequirement
      = some "User-Key Relation" ∧
    ¬ (registerV1Handler noRelationEnv stdRequest).1.status = 409 ∧
    (registerV2Handler noRelationEnv badTypeRequest).1.status = 400 ∧
    (registerV2Handler noRelationEnv badTypeRequest).1.missingRequirement
      = Option.none := by
  exact ⟨by decide, by decide, by decide, by decide, by decide⟩

/-- C3 (amended): for every register request that passes field validation
and whose derived registration address holds no account, a creator wallet
without a wallet→identity relation makes the accumulating register variant
fail with Conflict 409 naming "User-Key Relation", while the earlier
variant reports the same missing requirement with status 400; neither
performs any side effect. -/
theorem register_missing_relation_conflict (env : RegisterEnv) (r : RegisterRequest)
    (hval : registerV2Validate r = .ok [])
    (hh : jsTruthy r.contentHash = true)
    (ht : jsTruthy r.contentTitle = true)
    (hwa : jsTruthy r.walletAddress = true)
    (hwt : r.walletType = some "standard" ∨ r.walletType = some "crossmint")
    (hch : (jsTruthy r.claimHash && !isHex64 (r.claimHash.getD "")) = false)
    (hpk : env.isValidPubkey (r.walletAddress.getD "") = true)
    (hdup : env.fetchContentRegistration (contentRegistrationPda env.zkpProgramId
        (r.walletAddress.getD "") (r.contentHash.getD "")) = .notFound)
    (hrel : env.fetchUserKeyRelation (walletToUserIdPda env.userKeyRelProgramId
        (r.walletAddress.getD "")) = .notFound) :
    (registerV2Handler env r).1.status = 409 ∧
    (registerV2Handler env r).1.missingRequirement = some "User-Key Relation" ∧
    (registerV2Handler env r).2 = noRegisterEffects ∧
    (registerV1Handler env r).1.status = 400 ∧
    (registerV1Handler env r).1.missingRequirement = some "User-Key Relation" ∧
    (registerV1Handler env r).2 = noRegisterEffects := by
  have hwtT : jsTruthy r.walletType = true := by
    rcases hwt with hs | hs <;> rw [hs] <;> decide
  refine ⟨?_, ?_, ?_, ?_, ?_, ?_⟩
  · simp [registerV2Handler, hval, hpk, hdup, hrel, RegisterResponse.base]
  · simp [registerV2Handler, hval, hpk, hdup, hrel, RegisterResponse.base]
  · simp [registerV2Handler, hval, hpk, hdup, hrel, RegisterResponse.base]
  all_goals
    rcases hwt with hs | hs <;>
      simp +decide [registerV1Handler, hh, ht, hwa, hs, hwtT, hch, hpk, hdup, hrel,
        RegisterResponse.base]

/-- Witness for C3 (amended) at the spec's own scenario: contentHash is the
64-zero hex string, the creator wallet is valid but has no prior link; the
accumulating variant answers 409 naming "User-Key Relation", the earlier
one answers 400 with the same detail. -/
theorem register_missing_relation_conflict_witness :
    (registerV2Handler noRelationEnv stdRequest).1.status = 409 ∧
    (registerV2Handler noRelationEnv stdRequest).1.missingRequirement
      = some "User-Key Relation" ∧
    (registerV1Handler noRelationEnv stdRequest).1.status = 400 := by
  have h := register_missing_relation_conflict noRelationEnv stdRequest
    rfl (by decide) (by decide) (by decide) (Or.inl rfl) (by decide)
    rfl rfl rfl
  exact ⟨h.1, h.2.1, h.2.2.2.1⟩

/-- C10: when walletAddress is absent, the accumulating register variant
dereferences walletAddress.length before returning its collected validation
errors, so the request dies in the outer catch as a generic 500 response —
with no validation detail and no side effect — never as the 400 validation
response listing the missing field. -/
theorem register_missing_wallet_internal_error (env : RegisterEnv) (r : RegisterRequest)
    (h : r.walletAddress = Option.none) :
    (registerV2Handler env r).1.status = 500 ∧
    (registerV2Handler env r).1.validationErrors = Option.none ∧
    (registerV2Handler env r).1.errorFlag = true ∧
    (registerV2Handler env r).2 = noRegisterEffects := by
  have hv : registerV2Validate r = .error () := by
    simp [registerV2Validate, h]
  simp [registerV2Handler, hv, RegisterResponse.base]

/-- Witness for C10: an otherwise valid request with walletAddress absent
gets the generic 500, not a validation list. -/
theorem register_missing_wallet_internal_error_witness :
    (registerV2Handler freshRegisterEnv noWalletRequest).1.status = 500 ∧
    (registerV2Handler freshRegisterEnv noWalletRequest).1.validationErrors
      = Option.none :=
  ⟨(register_missing_wallet_internal_error freshRegisterEnv noWalletRequest rfl).1,
   (register_missing_wallet_internal_error freshRegisterEnv noWalletRequest rfl).2.1⟩

/-- Helper for C4, accumulating variant: without a successful upload no
instruction is built, nothing is submitted or persisted, no response
carries a storage identifier or transaction, and a request that reached the
upload is answered with an error. -/
theorem registerV2_upload_failure_aux (env : RegisterEnv) (r : RegisterRequest)
    (h : ∀ cid, env.upload ≠ UploadResult.okCid cid) :
    (registerV2Handler env r).2.instructionBuilt = false ∧
    (registerV2Handler env r).2.submitAttempted = false ∧
    (registerV2Handler env r).2.storedAction = Option.none ∧
    (registerV2Handler env r).1.ipfsCid = Option.none ∧
    (registerV2Handler env r).1.transaction = Option.none ∧
    ((registerV2Handler env r).2.uploadAttempted = true →
      (registerV2Handler env r).1.errorFlag = true) := by
  have hAfter : ∀ w c pda,
      (registerV2AfterChecks env r w c pda).2.instructionBuilt = false ∧
      (registerV2AfterChecks env r w c pda).2.submitAttempted = false ∧
      (registerV2AfterChecks env r w c pda).2.storedAction = Option.none ∧
      (registerV2AfterChecks env r w c pda).1.ipfsCid = Option.none ∧
      (registerV2AfterChecks env r w c pda).1.transaction = Option.none ∧
      ((registerV2AfterChecks env r w c pda).2.uploadAttempted = true →
        (registerV2AfterChecks env r w c pda).1.errorFlag = true) := by
    intro w c pda
    rcases hu : env.upload with ⟨st, body⟩ | _ | ⟨msg⟩ | ⟨cid⟩
    · simp [registerV2AfterChecks, hu, RegisterResponse.base, noRegisterEffects]
    · simp [registerV2AfterChecks, hu, RegisterResponse.base, noRegisterEffects]
    · simp [registerV2AfterChecks, hu, RegisterResponse.base, noRegisterEffects]
    · exact absurd hu (h cid)
  rcases hv : registerV2Validate r with e | errors
  · simp [registerV2Handler, hv, RegisterResponse.base, noRegisterEffects]
  · rcases hf : env.fetchContentRegistration (contentRegistrationPda env.zkpProgramId
        (r.walletAddress.getD "") (r.contentHash.getD "")) with acc | _ | _ <;>
      rcases hrel : env.fetchUserKeyRelation (walletToUserIdPda env.userKeyRelProgramId
          (r.walletAddress.getD "")) with rel | _ | _ <;>
      by_cases he : errors.isEmpty = true <;>
      by_cases hpk : env.isValidPubkey (r.walletAddress.getD "") = true <;>
      first
        | (simp [registerV2Handler, hv, hf, hrel, he, hpk, RegisterResponse.base,
            noRegisterEffects]; done)
        | (rw [show registerV2Handler env r
              = registerV2AfterChecks env r (r.walletAddress.getD "") (r.contentHash.getD "")
                  (contentRegistrationPda env.zkpProgramId (r.walletAddress.getD "")
                    (r.contentHash.getD "")) from by
            simp [registerV2Handler, hv, hf, hrel, he, hpk]];
           exact hAfter _ _ _)

/-- Helper for C4, earlier variant: the same abort guarantee. -/
theorem registerV1_upload_failure_aux (env : RegisterEnv) (r : RegisterRequest)
    (h : ∀ cid, env.upload ≠ UploadResult.okCid cid) :
    (registerV1Handler env r).2.instructionBuilt = false ∧
    (registerV1Handler env r).2.submitAttempted = false ∧
    (registerV1Handler env r).2.storedAction = Option.none ∧
    (registerV1Handler env r).1.ipfsCid = Option.none ∧
    (registerV1Handler env r).1.transaction = Option.none ∧
    ((registerV1Handler env r).2.uploadAttempted = true →
      (registerV1Handler env r).1.errorFlag = true) := by
  have hAfter : ∀ w c pda,
      (registerV1AfterChecks env r w c pda).2.instructionBuilt = false ∧
      (registerV1AfterChecks env r w c pda).2.submitAttempted = false ∧
      (registerV1AfterChecks env r w c pda).2.storedAction = Option.none ∧
      (registerV1AfterChecks env r w c pda).1.ipfsCid = Option.none ∧
      (registerV1AfterChecks env r w c pda).1.transaction = Option.none ∧
      ((registerV1AfterChecks env r w c pda).2.uploadAttempted = true →
        (registerV1AfterChecks env r w c pda).1.errorFlag = true) := by
    intro w c pda
    by_cases hmd : (jsTruthy r.metadata && decide ((r.metadata.getD "").length > 500)) = true
    · simp [registerV1AfterChecks, hmd, RegisterResponse.base, noRegisterEffects]
    · rcases hfm : r.fileMetadata with _ | fd
      · simp [registerV1AfterChecks, hmd, hfm, RegisterResponse.base, noRegisterEffects]
      · rcases hu : env.upload with ⟨st, body⟩ | _ | ⟨msg⟩ | ⟨cid⟩
        · simp [registerV1AfterChecks, hmd, hfm, hu, RegisterResponse.base, noRegisterEffects]
        · simp [registerV1AfterChecks, hmd, hfm, hu, RegisterResponse.base, noRegisterEffects]
        · simp [registerV1AfterChecks, hmd, hfm, hu, RegisterResponse.base, noRegisterEffects]
        · exact absurd hu (h cid)
  by_cases g1 : jsTruthy r.contentHash = true
  case neg => simp [registerV1Handler, g1, RegisterResponse.base, noRegisterEffects]
  by_cases g2 : (!jsTruthy r.contentTitle || !jsTruthy r.walletAddress
      || !jsTruthy r.walletType) = true
  case pos => simp [registerV1Handler, g1, g2, RegisterResponse.base, noRegisterEffects]
  by_cases g3 : r.walletType = some "standard" ∨ r.walletType = some "crossmint"
  case neg => simp [registerV1Handler, g1, g2, g3, RegisterResponse.base, noRegisterEffects]
  by_cases g4 : (jsTruthy r.claimHash && !isHex64 (r.claimHash.getD "")) = true
  case pos => simp [registerV1Handler, g1, g2, g3, g4, RegisterResponse.base, noRegisterEffects]
  by_cases hpk : env.isValidPubkey (r.walletAddress.getD "") = true
  case neg =>
    simp [registerV1Handler, g1, g2, g3, g4, hpk, RegisterResponse.base, noRegisterEffects]
  rcases hf : env.fetchContentRegistration (contentRegistrationPda env.zkpProgramId
      (r.walletAddress.getD "") (r.contentHash.getD "")) with acc | _ | _ <;>
    rcases hrel : env.fetchUserKeyRelation (walletToUserIdPda env.userKeyRelProgramId
        (r.walletAddress.getD "")) with rel | _ | _ <;>
    first
      | (simp [registerV1Handler, g1, g2, g3, g4, hpk, hf, hrel, RegisterResponse.base,
          noRegisterEffects]; done)
      | (rw [show registerV1Handler env r
            = registerV1AfterChecks env r (r.walletAddress.getD "") (r.contentHash.getD "")
                (contentRegistrationPda env.zkpProgramId (r.walletAddress.getD "")
                  (r.contentHash.getD "")) from by
          simp [registerV1Handler, g1, g2, g3, g4, hpk, hf, hrel]];
         exact hAfter _ _ _)

/-- C4: in both register variants, a metadata upload that does not yield a
content identifier — a non-ok storage response, an ok response without a
cid, or a thrown error — makes the handler return an error before any
registration instruction is built or dispatched, and no response carries a
missing or partial storage identifier. -/
theorem register_upload_failure_aborts (env : RegisterEnv) (r : RegisterRequest)
    (h : ∀ cid, env.upload ≠ UploadResult.okCid cid) :
    ((registerV2Handler env r).2.instructionBuilt = false ∧
     (registerV2Handler env r).2.submitAttempted = false ∧
     (registerV2Handler env r).2.storedAction = Option.none ∧
     (registerV2Handler env r).1.ipfsCid = Option.none ∧
     (registerV2Handler env r).1.transaction = Option.none ∧
     ((registerV2Handler env r).2.uploadAttempted = true →
       (registerV2Handler env r).1.errorFlag = true)) ∧
    ((registerV1Handler env r).2.instructionBuilt = false ∧
     (registerV1Handler env r).2.submitAttempted = false ∧
     (registerV1Handler env r).2.storedAction = Option.none ∧
     (registerV1Handler env r).1.ipfsCid = Option.none ∧
     (registerV1Handler env r).1.transaction = Option.none ∧
     ((registerV1Handler env r).2.uploadAttempted = true →
       (registerV1Handler env r).1.errorFlag = true)) :=
  ⟨registerV2_upload_failure_aux env r h, registerV1_upload_failure_aux env r h⟩

/-- Witness for C4: a valid request whose upload fails with a 502 storage
response is answered with that upstream error, builds no instruction and
reports no cid, in both variants. -/
theorem register_upload_failure_aborts_witness :
    (registerV2Handler uploadFailEnv stdRequest).2.instructionBuilt = false ∧
    (registerV2Handler uploadFailEnv stdRequest).1.ipfsCid = Option.none ∧
    (registerV1Handler uploadFailEnv stdRequest).2.instructionBuilt = false ∧
    (registerV2Handler uploadFailEnv stdRequest).1.status = 502 := by
  have hup : ∀ cid, uploadFailEnv.upload ≠ UploadResult.okCid cid := by
    intro cid hx
    simp [uploadFailEnv, freshRegisterEnv] at hx
  have h := register_upload_failure_aborts uploadFailEnv stdRequest hup
  exact ⟨h.1.1, h.1.2.2.2.1, h.2.1, by decide⟩

/-- C5: a valid standard-wallet registration with returnActionLink true
persists the serialized unsigned transaction as an ActionToken whose token
is the hex encoding of the 16 random bytes (32 characters) and whose
expiry is exactly 24 hours after issuance, and answers with status
"action-link-created" carrying the token and the link built from the fixed
base URL, with no raw transaction payload in the response. -/
theorem register_action_link_creation (env : RegisterEnv) (r : RegisterRequest)
    (rel : UserKeyRelation) (cid : String)
    (hval : registerV2Validate r = .ok [])
    (hpk : env.isValidPubkey (r.walletAddress.getD "") = true)
    (hdup : env.fetchContentRegistration (contentRegistrationPda env.zkpProgramId
        (r.walletAddress.getD "") (r.contentHash.getD "")) = .notFound)
    (hrel : env.fetchUserKeyRelation (walletToUserIdPda env.userKeyRelProgramId
        (r.walletAddress.getD "")) = .found rel)
    (hup : env.upload = .okCid cid)
    (hstd : r.walletType = some "standard")
    (hlink : r.returnActionLink = some true)
    (hdb : env.dbInsertOk = true)
    (hlen : env.randomBytes.length = 16)
    (hrange : ∀ b ∈ env.randomBytes, b < 256) :
    (registerV2Handler env r).1.status = 200 ∧
    (registerV2Handler env r).1.detailStatus = some "action-link-created" ∧
    (registerV2Handler env r).1.token = some (generateSecureToken env.randomBytes) ∧
    (generateSecureToken env.randomBytes).length = 32 ∧
    (registerV2Handler env r).1.actionLink
      = some ("http://trustengine.org/tx-action/" ++ generateSecureToken env.randomBytes) ∧
    (registerV2Handler env r).1.expiresAtMs = some (env.nowMs + 24 * 60 * 60 * 1000) ∧
    (registerV2Handler env r).1.transaction = Option.none ∧
    (registerV2Handler env r).2.storedAction
      = some ⟨generateSecureToken env.randomBytes,
          ⟨r.contentHash.getD "", claimHashHexUsed r, cid, env.nowMs / 1000,
           some env.blockhash, true⟩,
          r.walletAddress.getD "", r.contentHash.getD "", r.contentTitle.getD "",
          env.nowMs + 24 * 60 * 60 * 1000⟩ := by
  have hlen32 : (generateSecureToken env.randomBytes).length = 32 := by
    rw [generateSecureToken_length env.randomBytes hrange, hlen]
  refine ⟨?_, ?_, ?_, hlen32, ?_, ?_, ?_, ?_⟩ <;>
    simp [registerV2Handler, registerV2AfterChecks, hval, hpk, hdup, hrel, hup, hstd,
      hlink, hdb, RegisterResponse.base]

/-- Witness for C5: the concrete valid request with returnActionLink true
yields the action-link response with a 32-character token and a 24-hour
expiry. -/
theorem register_action_link_creation_witness :
    (registerV2Handler freshRegisterEnv stdLinkRequest).1.status = 200 ∧
    (registerV2Handler freshRegisterEnv stdLinkRequest).1.detailStatus
      = some "action-link-created" ∧
    (generateSecureToken freshRegisterEnv.randomBytes).length = 32 ∧
    (registerV2Handler freshRegisterEnv stdLinkRequest).1.expiresAtMs
      = some (1700000000000 + 24 * 60 * 60 * 1000) := by
  have h := register_action_link_creation freshRegisterEnv stdLinkRequest
    sampleRelation "QmCid1" rfl rfl rfl rfl rfl rfl rfl rfl (by decide) (by decide)
  exact ⟨h.1, h.2.1, h.2.2.2.1, h.2.2.2.2.2.1⟩

/-- C6: after validation, a link request whose identity→wallet address
already holds a relation fails with 409 reporting the existing wallet; one
whose wallet→identity address already holds a relation fails with 409
reporting the existing user id; only when both derived addresses are
absent does the handler construct and submit the single instruction naming
both directional records, answering 200 with the signature when submission
succeeds. -/
theorem link_wallet_conflict_guard (env : LinkEnv) (r : LinkRequest)
    (hvalid : linkWalletValidate env r = []) :
    (∀ rel, env.fetchRelation (userIdToWalletPda env.userKeyRelProgramId
        (r.userID.getD "")) = .found rel →
      (linkWalletHandler env r).1.status = 409 ∧
      (linkWalletHandler env r).1.conflictType = some "User ID already linked" ∧
      (linkWalletHandler env r).1.existingWallet = some rel.userPublicKey ∧
      (linkWalletHandler env r).2.builtInstruction = Option.none ∧
      (linkWalletHandler env r).2.submitAttempted = false) ∧
    (∀ rel, env.fetchRelation (userIdToWalletPda env.userKeyRelProgramId
        (r.userID.getD "")) = .notFound →
      env.fetchRelation (walletToUserIdPda env.userKeyRelProgramId
        (r.walletAddress.getD "")) = .found rel →
      (linkWalletHandler env r).1.status = 409 ∧
      (linkWalletHandler env r).1.conflictType = some "Wallet already linked" ∧
      (linkWalletHandler env r).1.existingUserID = some rel.userId ∧
      (linkWalletHandler env r).2.builtInstruction = Option.none ∧
      (linkWalletHandler env r).2.submitAttempted = false) ∧
    (env.fetchRelation (userIdToWalletPda env.userKeyRelProgramId
        (r.userID.getD "")) = .notFound →
     env.fetchRelation (walletToUserIdPda env.userKeyRelProgramId
        (r.walletAddress.getD "")) = .notFound →
      (linkWalletHandler env r).2.builtInstruction
        = some ⟨r.userID.getD "", r.walletAddress.getD "",
            userIdToWalletPda env.userKeyRelProgramId (r.userID.getD ""),
            walletToUserIdPda env.userKeyRelProgramId (r.walletAddress.getD "")⟩ ∧
      (linkWalletHandler env r).2.submitAttempted = true ∧
      ∀ sig, env.submitResult = .ok sig →
        (linkWalletHandler env r).1.status = 200 ∧
        (linkWalletHandler env r).1.transactionSignature = some sig) := by
  refine ⟨?_, ?_, ?_⟩
  · intro rel hfound
    refine ⟨?_, ?_, ?_, ?_, ?_⟩ <;> simp [linkWalletHandler, hvalid, hfound]
  · intro rel hnf hfound
    refine ⟨?_, ?_, ?_, ?_, ?_⟩ <;> simp [linkWalletHandler, hvalid, hnf, hfound]
  · intro hnf1 hnf2
    rcases hs : env.submitResult with e | sig0
    · refine ⟨?_, ?_, ?_⟩
      · simp [linkWalletHandler, hvalid, hnf1, hnf2, hs]
      · simp [linkWalletHandler, hvalid, hnf1, hnf2, hs]
      · intro sig hsig
        simp at hsig
    · refine ⟨?_, ?_, ?_⟩
      · simp [linkWalletHandler, hvalid, hnf1, hnf2, hs]
      · simp [linkWalletHandler, hvalid, hnf1, hnf2, hs]
      · intro sig hsig
        injection hsig with hsig
        subst hsig
        constructor <;> simp [linkWalletHandler, hvalid, hnf1, hnf2, hs]

/-- Witness for C6: on an empty ledger the concrete link request builds and
submits the two-record instruction and answers 200; on the ledger that
already holds the relation, the same request answers 409 reporting the
existing wallet. -/
theorem link_wallet_conflict_guard_witness :
    (linkWalletHandler sampleLinkEnv sampleLinkReq).1.status = 200 ∧
    (linkWalletHandler sampleLinkEnv sampleLinkReq).2.submitAttempted = true ∧
    (linkWalletHandler linkedLinkEnv sampleLinkReq).1.status = 409 ∧
    (linkWalletHandler linkedLinkEnv sampleLinkReq).1.existingWallet
      = some "WalletAAA" := by
  have h1 := (link_wallet_conflict_guard sampleLinkEnv sampleLinkReq (by decide)).2.2
    rfl rfl
  have h2 := (link_wallet_conflict_guard linkedLinkEnv sampleLinkReq (by decide)).1
    sampleRelation (by decide)
  exact ⟨(h1.2.2 "sig-2" rfl).1, h1.2.1, h2.1, h2.2.2.1⟩

/-- C7 (behaviour at the failing input): every existence check treats any
fetch failure as absence. With the relation fetches failing for an
infrastructure reason, link-wallet proceeds to construct and submit the
link; with the duplicate-registration fetch failing for an infrastructure
reason, register proceeds to a successful registration; with the
prerequisite fetch failing for an infrastructure reason, register reports
the relation as missing. None of these propagate the infrastructure
error. -/
theorem fetch_failure_conflated_with_absence :
    (linkWalletHandler infraLinkEnv sampleLinkReq).1.status = 200 ∧
    (linkWalletHandler infraLinkEnv sampleLinkReq).2.submitAttempted = true ∧
    (registerV2Handler infraDupCheckEnv stdRequest).1.status = 200 ∧
    (registerV2Handler infraDupCheckEnv stdRequest).1.detailStatus
      = some "requires-client-signature" ∧
    (registerV2Handler infraRelCheckEnv stdRequest).1.status = 409 ∧
    (registerV2Handler infraRelCheckEnv stdRequest).1.missingRequirement
      = some "User-Key Relation" := by
  exact ⟨by decide, by decide, by decide, by decide, by decide, by decide⟩

/-- C8 (behaviour at the failing input): the search enrichment derives its
relation address with seed tag "user_key_relation" while link-wallet wrote
the relation under "wallet_to_user_id"; the two derivations disagree for
every wallet, so on a ledger holding exactly the relation link-wallet
created, find-wallet — which uses the writer tag — resolves it, but the
search enrichment reads nothing and reports no userID. -/
theorem search_enrichment_tag_mismatch :
    (∀ progId wallet, searchUserKeyRelationPda progId wallet
      ≠ walletToUserIdPda progId wallet) ∧
    searchUserIdEnrichment linkedSearchEnv "WalletAAA" = Option.none ∧
    (findWalletV1Handler linkedFindEnv ⟨Option.none, some "WalletAAA"⟩).relationUserId
      = some "user-1" ∧
    (linkWalletHandler linkedLinkEnv sampleLinkReq).1.status = 409 := by
  refine ⟨?_, by decide, by decide, by decide⟩
  intro progId wallet
  simp [searchUserKeyRelationPda, walletToUserIdPda, findProgramAddressSync]

/-- Counterexample for C9 as stated: the src/src find-wallet variant
answers a missing relation with status 404, not the claimed 409. -/
theorem find_wallet_notfound_status_counterexample :
    (findWalletV1Handler absentFindEnv ⟨some "user-1", Option.none⟩).status = 404 ∧
    ¬ (findWalletV1Handler absentFindEnv ⟨some "user-1", Option.none⟩).status = 409 := by
  exact ⟨by decide, by decide⟩

/-- C9 (amended): supplying both parameters or neither yields the 400
exactly-one validation error in both find-wallet variants; when exactly
one is supplied and the derived relation account is absent, the part_002
variant answers 409 and the src/src variant answers 404 — neither ever
answers 200 with an empty payload. -/
theorem find_wallet_contract (env : FindWalletEnv) (q : FindWalletQuery) :
    (((jsTruthy q.userID = false ∧ jsTruthy q.walletAddress = false) ∨
      (jsTruthy q.userID = true ∧ jsTruthy q.walletAddress = true)) →
      (findWalletV1Handler env q).status = 400 ∧
      (findWalletV2Handler env q).status = 400 ∧
      (findWalletV1Handler env q).exactlyOneViolation = true ∧
      (findWalletV2Handler env q).exactlyOneViolation = true) ∧
    (jsTruthy q.userID = true → jsTruthy q.walletAddress = false →
      env.fetchRelation (userIdToWalletPda env.userKeyRelProgramId
        (q.userID.getD "")) = .notFound →
      (findWalletV2Handler env q).status = 409 ∧
      (findWalletV1Handler env q).status = 404 ∧
      (findWalletV1Handler env q).relationUserId = Option.none ∧
      (findWalletV2Handler env q).relationUserId = Option.none ∧
      (findWalletV1Handler env q).errorFlag = true ∧
      (findWalletV2Handler env q).errorFlag = true) ∧
    (jsTruthy q.userID = false → jsTruthy q.walletAddress = true →
      env.isValidPubkey (q.walletAddress.getD "") = true →
      env.fetchRelation (walletToUserIdPda env.userKeyRelProgramId
        (q.walletAddress.getD "")) = .notFound →
      (findWalletV2Handler env q).status = 409 ∧
      (findWalletV1Handler env q).status = 404 ∧
      (findWalletV1Handler env q).relationUserId = Option.none ∧
      (findWalletV2Handler env q).relationUserId = Option.none) := by
  refine ⟨?_, ?_, ?_⟩
  · rintro (⟨h1, h2⟩ | ⟨h1, h2⟩) <;>
      refine ⟨?_, ?_, ?_, ?_⟩ <;>
      simp [findWalletV1Handler, findWalletV2Handler, h1, h2]
  · intro h1 h2 hnf
    refine ⟨?_, ?_, ?_, ?_, ?_, ?_⟩ <;>
      simp [findWalletV1Handler, findWalletV2Handler, h1, h2, hnf]
  · intro h1 h2 hpk hnf
    refine ⟨?_, ?_, ?_, ?_⟩ <;>
      simp [findWalletV1Handler, findWalletV2Handler, h1, h2, hpk, hnf]

/-- Witness for C9 (amended): a both-set query gets 400 from both
variants; a userID-only query with no relation gets 409 from the part_002
variant and 404 from the src/src variant. -/
theorem find_wallet_contract_witness :
    (findWalletV1Handler absentFindEnv ⟨some "user-1", some "WalletAAA"⟩).status = 400 ∧
    (findWalletV2Handler absentFindEnv ⟨some "user-1", some "WalletAAA"⟩).status = 400 ∧
    (findWalletV2Handler absentFindEnv ⟨some "user-1", Option.none⟩).status = 409 ∧
    (findWalletV1Handler absentFindEnv ⟨some "user-1", Option.none⟩).status = 404 := by
  have h1 := (find_wallet_contract absentFindEnv ⟨some "user-1", some "WalletAAA"⟩).1
    (Or.inr ⟨by decide, by decide⟩)
  have h2 := (find_wallet_contract absentFindEnv ⟨some "user-1", Option.none⟩).2.1
    (by decide) (by decide) rfl
  exact ⟨h1.1, h1.2.1, h2.1, h2.2.1⟩

end TrustEngine
